import Mathlib

/-!
Shallow embedding of the audio diarization worker (src/worker/main.py).

The worker's pure pipeline logic is translated directly:
* `detect_speech_segments` — the VAD-frame merge loop (lines 123-151).
  The external per-frame voice-activity detector (webrtcvad) is abstracted
  as the per-frame Boolean classification `cls`; the function embeds the
  merge/minimum-duration logic applied to that classification.
* `extract_embeddings` — the per-segment slicing and zero-vector
  substitution (lines 156-180); the external pretrained encoder
  (resemblyzer) is a function parameter that may fail.
* `cluster_speakers` — the fewer-than-2 short cut and the call into the
  external clustering routine (lines 185-198), a function parameter.
* `calculate_confidence` — the guards, the clamp and the local
  exception-to-0.0 recovery (lines 203-220); the external
  silhouette-score routine is a function parameter that may fail.
* `diarize_audio` — the request handler (lines 222-286), with the
  filesystem side effects (temporary file creation and deletion) made
  explicit as state passing over `FS`, and the external collaborators
  (download, ffmpeg conversion, VAD, audio loading) collected in `Env`.

Python floats are modelled as exact rationals: every duration produced by
the segmenter is a multiple of 0.03 s, far from the 0.25 s threshold
relative to double rounding error, so the exact model agrees with the
float computation on the properties proved here.
-/

/-- A speech segment as produced by `detect_speech_segments`:
the dict `{'start': ..., 'end': ...}`, times in seconds. -/
structure SpeechSegment where
  start : ℚ
  «end» : ℚ
deriving DecidableEq

/-- Frame index to seconds: `frame_duration = 30` ms, time = `n * 30 / 1000`
(main.py lines 107, 132-133, 143-144). -/
def frameTime (n : ℕ) : ℚ := (n : ℚ) * 30 / 1000

/-- The segment-emission step of the merge loop (main.py lines 131-138 and
142-149): emit `{'start': start_time, 'end': end_time}` only when
`end_time - start_time >= 0.25`. -/
def emitSegment (start_frame prev_frame : ℕ) : List SpeechSegment :=
  let end_time := frameTime (prev_frame + 1)
  let start_time := frameTime start_frame
  if end_time - start_time ≥ 25/100 then [⟨start_time, end_time⟩] else []

/-- The merge loop of `detect_speech_segments` (main.py lines 126-149):
state `(start_frame, prev_frame)`, iterating over the remaining speech
frame indices; a new segment starts when `frame - prev_frame > 1`. -/
def mergeFrames : ℕ → ℕ → List ℕ → List SpeechSegment
  | start_frame, prev_frame, [] => emitSegment start_frame prev_frame
  | start_frame, prev_frame, frame :: rest =>
    if frame - prev_frame > 1 then
      emitSegment start_frame prev_frame ++ mergeFrames frame frame rest
    else
      mergeFrames start_frame frame rest

/-- The `speech_frames` list (main.py lines 117-121): the indices `i` of
the frames the VAD classifies as speech, in increasing order. -/
def speech_frames (cls : List Bool) : List ℕ :=
  (List.range cls.length).filter (fun i => cls.getD i false)

/-- `detect_speech_segments` (main.py lines 94-151), as a function of the
per-frame VAD classification: empty speech-frame list gives `[]`,
otherwise the merge loop runs from the first speech frame. -/
def detect_speech_segments (cls : List Bool) : List SpeechSegment :=
  match speech_frames cls with
  | [] => []
  | first :: rest => mergeFrames first first rest

/-- Python `int()` applied to a rational: truncation toward zero. -/
def pyInt (q : ℚ) : ℤ := if q < 0 then ⌈q⌉ else ⌊q⌋

/-- Python list slicing `xs[a:b]`: negative indices count from the end,
then both bounds are clamped to `[0, len(xs)]`. -/
def pySlice {α : Type} (xs : List α) (a b : ℤ) : List α :=
  let n : ℤ := xs.length
  let a2 := (max 0 (min n (if a < 0 then n + a else a))).toNat
  let b2 := (max 0 (min n (if b < 0 then n + b else b))).toNat
  (xs.take b2).drop a2

/-- The slice `segment_wav = wav[start_sample:end_sample]` with
`start_sample = int(segment['start'] * 16000)` and
`end_sample = int(segment['end'] * 16000)` (main.py lines 167-171). -/
def segment_slice (wav : List ℚ) (segment : SpeechSegment) : List ℚ :=
  pySlice wav (pyInt (segment.start * 16000)) (pyInt (segment.«end» * 16000))

/-- The loop body of `extract_embeddings` (main.py lines 173-178):
`if len(segment_wav) > 0:` embed it, `else:` use `np.zeros(256)`; the
external encoder may fail. -/
def embed_one (encoder : List ℚ → Except String (List ℚ)) (wav : List ℚ)
    (segment : SpeechSegment) : Except String (List ℚ) :=
  if (segment_slice wav segment).length > 0 then encoder (segment_slice wav segment)
  else Except.ok (List.replicate 256 (0 : ℚ))

/-- `extract_embeddings` (main.py lines 156-183): one embedding per
segment, in order; an empty slice yields `np.zeros(256)`; a failure of
the external encoder aborts the whole extraction (the exception
propagates out of the loop). -/
def extract_embeddings (encoder : List ℚ → Except String (List ℚ)) (wav : List ℚ) :
    List SpeechSegment → Except String (List (List ℚ))
  | [] => Except.ok []
  | segment :: rest =>
    match embed_one encoder wav segment with
    | Except.error e => Except.error e
    | Except.ok embedding =>
      match extract_embeddings encoder wav rest with
      | Except.error e => Except.error e
      | Except.ok rest_embeddings => Except.ok (embedding :: rest_embeddings)

/-- `cluster_speakers` (main.py lines 185-201): fewer than 2 embeddings
give `[0] * len(embeddings)`; otherwise the external clustering routine
(`AgglomerativeClustering(...).fit_predict`) runs and its failure
propagates. -/
def cluster_speakers (fit_predict : List (List ℚ) → Except String (List ℕ))
    (embeddings : List (List ℚ)) : Except String (List ℕ) :=
  if embeddings.length < 2 then Except.ok (List.replicate embeddings.length 0)
  else fit_predict embeddings

/-- `calculate_confidence` (main.py lines 203-220): fewer than 2
embeddings give 0.0; a single distinct label (`len(np.unique(labels))`)
gives 0.0; otherwise `max(0.0, silhouette_score(X, labels))`; any failure
of the external silhouette computation is caught and mapped to 0.0. -/
def calculate_confidence (silhouette_score : List (List ℚ) → List ℕ → Except String ℚ)
    (embeddings : List (List ℚ)) (labels : List ℕ) : ℚ :=
  if embeddings.length < 2 then 0
  else if labels.dedup.length > 1 then
    match silhouette_score embeddings labels with
    | Except.ok score => max 0 score
    | Except.error _ => 0
  else 0

/-- A `DiarizationSegment` of the response model (main.py lines 36-40). -/
structure DiarizationSegment where
  start : ℚ
  «end» : ℚ
  speaker : String
  text : String
deriving DecidableEq

/-- The `DiarizationResponse` model (main.py lines 42-46); the `debug`
dict is modelled as an association list with stringified values. -/
structure DiarizationResponse where
  diarizedSegments : List DiarizationSegment
  speakerCount : ℕ
  confidence : ℚ
  debug : List (String × String)
deriving DecidableEq

/-- The temporary files currently existing on disk. -/
structure FS where
  files : List String
deriving DecidableEq

/-- Creation of a temporary file at `path`. -/
def createFile (path : String) (fs : FS) : FS := ⟨fs.files ++ [path]⟩

/-- `os.unlink(path)`: the file is removed (on the success path of
`diarize_audio` both files exist, so the `try/except pass` around the
deletes never fires there). -/
def unlink (path : String) (fs : FS) : FS := ⟨fs.files.erase path⟩

/-- The external collaborators of one `/diarize` invocation:
`download_audio` (returns the temp path or fails), `convert_to_wav`
(returns the converted path or fails), the librosa+webrtcvad frame
classification inside `detect_speech_segments` (fails on malformed
audio), `preprocess_wav`, the resemblyzer encoder, sklearn
`fit_predict`, and sklearn `silhouette_score`. -/
structure Env where
  download : Except String String
  convert : String → Except String String
  vad : String → Except String (List Bool)
  samples : String → List ℚ
  encoder : List ℚ → Except String (List ℚ)
  fit_predict : List (List ℚ) → Except String (List ℕ)
  silhouette_score : List (List ℚ) → List ℕ → Except String ℚ

/-- The diarized-segment construction loop (main.py lines 256-264):
`speaker_label = speaker_labels[i] if i < len(speaker_labels) else 0`,
display name `f"Speaker {speaker_label + 1}"`, empty text. -/
def build_segments (speech_segments : List SpeechSegment) (speaker_labels : List ℕ) :
    List DiarizationSegment :=
  speech_segments.enum.map (fun p =>
    ⟨p.2.start, p.2.«end»,
     "Speaker " ++ toString ((if p.1 < speaker_labels.length then speaker_labels.getD p.1 0 else 0) + 1),
     ""⟩)

/-- The `/diarize` handler `diarize_audio` (main.py lines 222-286), with
the temp-file state explicit. Stage failures propagate as the
invocation's failure (the `except` clause re-raises); the temp files are
unlinked only on the normal success path (lines 266-271). -/
def diarize_audio (env : Env) (fs : FS) : Except String DiarizationResponse × FS :=
  match env.download with
  | Except.error e => (Except.error e, fs)
  | Except.ok audio_path =>
    let fs1 := createFile audio_path fs
    match env.convert audio_path with
    | Except.error e => (Except.error e, fs1)
    | Except.ok wav_path =>
      let fs2 := createFile wav_path fs1
      match env.vad wav_path with
      | Except.error e => (Except.error e, fs2)
      | Except.ok cls =>
        if (detect_speech_segments cls).isEmpty then
          (Except.ok ⟨[], 0, 0, [("message", "No speech detected")]⟩, fs2)
        else
          match extract_embeddings env.encoder (env.samples wav_path) (detect_speech_segments cls) with
          | Except.error e => (Except.error e, fs2)
          | Except.ok embeddings =>
            match cluster_speakers env.fit_predict embeddings with
            | Except.error e => (Except.error e, fs2)
            | Except.ok speaker_labels =>
              (Except.ok
                ⟨build_segments (detect_speech_segments cls) speaker_labels,
                 speaker_labels.dedup.length,
                 calculate_confidence env.silhouette_score embeddings speaker_labels,
                 [("speech_segments_count", toString (detect_speech_segments cls).length),
                  ("embeddings_count", toString embeddings.length),
                  ("processing_time", "mock")]⟩,
               unlink wav_path (unlink audio_path fs2))

/-! ### Segmenter lemmas -/

lemma mergeFrames_nil (s p : ℕ) : mergeFrames s p [] = emitSegment s p := rfl

lemma mergeFrames_cons (s p f : ℕ) (rest : List ℕ) :
    mergeFrames s p (f :: rest) =
      if f - p > 1 then emitSegment s p ++ mergeFrames f f rest
      else mergeFrames s f rest := rfl

/-- The minimum-duration test in frame counts: the duration
`(p + 1) * 0.03 - s * 0.03` reaches 0.25 s exactly when the run
`[s..p]` spans at least 9 frames. -/
lemma frameDur_ge_iff (s p : ℕ) :
    frameTime (p + 1) - frameTime s ≥ 25/100 ↔ s + 8 ≤ p := by
  unfold frameTime
  rw [ge_iff_le, div_sub_div_same, le_div_iff₀ (by norm_num)]
  constructor
  · intro h
    by_contra hc
    have h2 : p ≤ s + 7 := by omega
    have h' : (p : ℚ) ≤ (s : ℚ) + 7 := by exact_mod_cast h2
    push_cast at h
    nlinarith
  · intro h
    have h' : (s : ℚ) + 8 ≤ (p : ℚ) := by exact_mod_cast h
    push_cast
    nlinarith

lemma emitSegment_eq (s p : ℕ) :
    emitSegment s p = if s + 8 ≤ p then [⟨frameTime s, frameTime (p + 1)⟩] else [] := by
  unfold emitSegment
  rcases le_or_lt (s + 8) p with h | h
  · rw [if_pos ((frameDur_ge_iff s p).mpr h), if_pos h]
  · rw [if_neg, if_neg (by omega)]
    rw [frameDur_ge_iff]
    omega

lemma mem_emitSegment {s p : ℕ} {seg : SpeechSegment} (h : seg ∈ emitSegment s p) :
    seg = ⟨frameTime s, frameTime (p + 1)⟩ ∧ frameTime (p + 1) - frameTime s ≥ 25/100 := by
  rw [emitSegment_eq] at h
  split at h
  · next hc =>
      simp only [List.mem_singleton] at h
      exact ⟨h, (frameDur_ge_iff s p).mpr hc⟩
  · simp at h

lemma emitSegment_pairwise (s p : ℕ) (R : SpeechSegment → SpeechSegment → Prop) :
    List.Pairwise R (emitSegment s p) := by
  rw [emitSegment_eq]
  split <;> simp

/-- Every segment the merge loop emits passes the 0.25 s filter. -/
lemma mergeFrames_duration :
    ∀ (l : List ℕ) (s p : ℕ), ∀ seg ∈ mergeFrames s p l, 25/100 ≤ seg.«end» - seg.start := by
  intro l
  induction l with
  | nil =>
    intro s p seg hseg
    rw [mergeFrames_nil] at hseg
    obtain ⟨he, hd⟩ := mem_emitSegment hseg
    rw [he]
    exact hd
  | cons f rest ih =>
    intro s p seg hseg
    rw [mergeFrames_cons] at hseg
    split at hseg
    · rcases List.mem_append.mp hseg with h | h
      · obtain ⟨he, hd⟩ := mem_emitSegment h
        rw [he]; exact hd
      · exact ih f f seg h
    · exact ih s f seg hseg

lemma frameTime_mono {n m : ℕ} (h : n ≤ m) : frameTime n ≤ frameTime m := by
  unfold frameTime
  have h' : (n : ℚ) ≤ (m : ℚ) := by exact_mod_cast h
  linarith

/-- Invariant of the merge loop: with state `(s, p)`, `s ≤ p`, and the
remaining speech frames strictly increasing above `p`, every emitted segment
starts no earlier than `frameTime s`, and consecutive emitted segments
do not overlap. -/
lemma mergeFrames_lb_pairwise :
    ∀ (l : List ℕ) (s p : ℕ), s ≤ p → List.Chain (· < ·) p l →
      (∀ seg ∈ mergeFrames s p l, frameTime s ≤ seg.start) ∧
      List.Pairwise (fun x y => x.«end» ≤ y.start) (mergeFrames s p l) := by
  intro l
  induction l with
  | nil =>
    intro s p _ _
    rw [mergeFrames_nil]
    constructor
    · intro seg hseg
      obtain ⟨he, _⟩ := mem_emitSegment hseg
      rw [he]
    · exact emitSegment_pairwise s p _
  | cons f rest ih =>
    intro s p hsp hch
    rw [List.chain_cons] at hch
    obtain ⟨hpf, hch'⟩ := hch
    rw [mergeFrames_cons]
    split
    · next hgap =>
      have hf2 : p + 2 ≤ f := by omega
      obtain ⟨ihlb, ihpw⟩ := ih f f le_rfl hch'
      constructor
      · intro seg hseg
        rcases List.mem_append.mp hseg with h | h
        · obtain ⟨he, _⟩ := mem_emitSegment h
          rw [he]
        · exact le_trans (frameTime_mono (by omega : s ≤ f)) (ihlb seg h)
      · rw [List.pairwise_append]
        refine ⟨emitSegment_pairwise s p _, ihpw, ?_⟩
        intro x hx y hy
        obtain ⟨hex, _⟩ := mem_emitSegment hx
        rw [hex]
        exact le_trans (frameTime_mono (by omega : p + 1 ≤ f)) (ihlb y hy)
    · exact ih s f (by omega) hch'

lemma pairwise_speech_frames (cls : List Bool) :
    List.Pairwise (· < ·) (speech_frames cls) :=
  (List.pairwise_lt_range _).filter _

lemma detect_pairwise (cls : List Bool) :
    List.Pairwise (fun x y => x.«end» ≤ y.start) (detect_speech_segments cls) := by
  unfold detect_speech_segments
  cases h : speech_frames cls with
  | nil => simp
  | cons f rest =>
    have hpw : List.Pairwise (· < ·) (f :: rest) := by
      rw [← h]; exact pairwise_speech_frames cls
    have hch : List.Chain (· < ·) f rest := List.chain_iff_pairwise.mpr hpw
    exact (mergeFrames_lb_pairwise rest f f le_rfl hch).2

lemma detect_duration (cls : List Bool) :
    ∀ seg ∈ detect_speech_segments cls, 25/100 ≤ seg.«end» - seg.start := by
  intro seg hseg
  unfold detect_speech_segments at hseg
  revert hseg
  cases h : speech_frames cls with
  | nil => simp
  | cons f rest => exact fun hseg => mergeFrames_duration rest f f seg hseg

lemma range_one_succ (s n : ℕ) : List.range' s (n + 1) = s :: List.range' (s + 1) n := by
  simp [List.range'_succ]

/-- A run of consecutive speech frames is absorbed into the current
segment: no element of `[p+1, ..., p+k]` triggers the gap test. -/
lemma run_absorb_append (k : ℕ) : ∀ (s p : ℕ) (l : List ℕ),
    mergeFrames s p (List.range' (p + 1) k ++ l) = mergeFrames s (p + k) l := by
  induction k with
  | zero => intro s p l; simp [List.range']
  | succ n ih =>
    intro s p l
    rw [range_one_succ, List.cons_append, mergeFrames_cons]
    rw [if_neg (by omega)]
    rw [ih s (p + 1) l]
    congr 1
    omega

lemma run_absorb (k s p : ℕ) :
    mergeFrames s p (List.range' (p + 1) k) = emitSegment s (p + k) := by
  have h := run_absorb_append k s p []
  rw [List.append_nil] at h
  rw [h, mergeFrames_nil]

/-- A classification whose speech frames are exactly the two runs
`[a..b]` and `[b+2..c]` — a single non-speech frame at `b+1` — produces
two segments, both passing the duration filter. -/
lemma detect_two_runs (cls : List Bool) (a b c : ℕ) (hab : a ≤ b) (hbc : b + 2 ≤ c)
    (hsf : speech_frames cls =
      List.range' a (b + 1 - a) ++ List.range' (b + 2) (c - b - 1))
    (hd1 : frameTime (b + 1) - frameTime a ≥ 25/100)
    (hd2 : frameTime (c + 1) - frameTime (b + 2) ≥ 25/100) :
    detect_speech_segments cls =
      [⟨frameTime a, frameTime (b + 1)⟩, ⟨frameTime (b + 2), frameTime (c + 1)⟩] := by
  have h1 : b + 1 - a = (b - a) + 1 := by omega
  have h2 : c - b - 1 = (c - b - 2) + 1 := by omega
  rw [h1, h2, range_one_succ, range_one_succ] at hsf
  unfold detect_speech_segments
  rw [hsf]
  show mergeFrames a a (List.range' (a + 1) (b - a) ++
    ((b + 2) :: List.range' (b + 2 + 1) (c - b - 2))) = _
  rw [run_absorb_append]
  rw [show a + (b - a) = b from by omega]
  rw [mergeFrames_cons, if_pos (by omega)]
  rw [run_absorb]
  rw [show b + 2 + (c - b - 2) = c from by omega]
  rw [emitSegment_eq, emitSegment_eq]
  rw [if_pos ((frameDur_ge_iff a b).mp hd1)]
  have hc2 : b + 2 + 8 ≤ c := (frameDur_ge_iff (b + 2) c).mp hd2
  rw [if_pos (by omega)]
  rfl

/-- Concrete evaluation used by witnesses: nine consecutive speech frames
merge into the single segment `[0, 0.27]`. -/
lemma detect_replicate9 :
    detect_speech_segments (List.replicate 9 true) = [⟨0, 27/100⟩] := by
  have h : speech_frames (List.replicate 9 true) = List.range' 0 9 := by decide
  unfold detect_speech_segments
  rw [h, range_one_succ]
  show mergeFrames 0 0 (List.range' (0 + 1) 8) = _
  rw [run_absorb, emitSegment_eq, if_pos (by omega)]
  norm_num [frameTime]

/-! ### Extractor lemmas -/

lemma extract_nil (encoder : List ℚ → Except String (List ℚ)) (wav : List ℚ) :
    extract_embeddings encoder wav [] = Except.ok [] := rfl

lemma extract_cons (encoder : List ℚ → Except String (List ℚ)) (wav : List ℚ)
    (segment : SpeechSegment) (rest : List SpeechSegment) :
    extract_embeddings encoder wav (segment :: rest) =
      (match embed_one encoder wav segment with
      | Except.error e => Except.error e
      | Except.ok embedding =>
        match extract_embeddings encoder wav rest with
        | Except.error e => Except.error e
        | Except.ok rest_embeddings => Except.ok (embedding :: rest_embeddings)) := rfl

lemma pySlice_nil {α : Type} (a b : ℤ) : pySlice ([] : List α) a b = [] := by
  simp [pySlice]

/-- Whenever the extraction loop completes, it has produced exactly one
embedding per segment. -/
lemma extract_ok_length (encoder : List ℚ → Except String (List ℚ)) (wav : List ℚ) :
    ∀ (segs : List SpeechSegment) (embs : List (List ℚ)),
      extract_embeddings encoder wav segs = Except.ok embs → embs.length = segs.length := by
  intro segs
  induction segs with
  | nil =>
    intro embs h
    rw [extract_nil] at h
    cases h
    rfl
  | cons segment rest ih =>
    intro embs h
    rw [extract_cons] at h
    cases h1 : embed_one encoder wav segment with
    | error e => rw [h1] at h; cases h
    | ok embedding =>
      rw [h1] at h
      cases h2 : extract_embeddings encoder wav rest with
      | error e => rw [h2] at h; cases h
      | ok rest_embeddings =>
        rw [h2] at h
        cases h
        simp [ih rest_embeddings h2]

/-- With an encoder that never fails, the extraction loop is a `map`. -/
lemma extract_pure (f : List ℚ → List ℚ) (wav : List ℚ) :
    ∀ segs : List SpeechSegment,
      extract_embeddings (fun s => Except.ok (f s)) wav segs =
        Except.ok (segs.map (fun segment =>
          if (segment_slice wav segment).length > 0 then f (segment_slice wav segment)
          else List.replicate 256 0)) := by
  intro segs
  induction segs with
  | nil => rfl
  | cons segment rest ih =>
    rw [extract_cons, ih, List.map_cons, embed_one]
    by_cases h : (segment_slice wav segment).length > 0
    · rw [if_pos h, if_pos h]
    · rw [if_neg h, if_neg h]

/-! ### Clusterer, confidence and pipeline lemmas -/

lemma cluster_speakers_ok_length (fit_predict : List (List ℚ) → Except String (List ℕ))
    (hfp : ∀ X L, fit_predict X = Except.ok L → L.length = X.length)
    (embs : List (List ℚ)) (L : List ℕ)
    (h : cluster_speakers fit_predict embs = Except.ok L) : L.length = embs.length := by
  unfold cluster_speakers at h
  split at h
  · cases h; simp
  · exact hfp _ _ h

lemma dedup_len_le_one {l : List ℕ} (h : ∀ a ∈ l, ∀ b ∈ l, a = b) : l.dedup.length ≤ 1 := by
  cases hd : l.dedup with
  | nil => simp
  | cons x t =>
    cases ht : t with
    | nil => simp
    | cons y t2 =>
      exfalso
      have hnd : l.dedup.Nodup := List.nodup_dedup l
      rw [hd, ht] at hnd
      have hxy : x ≠ y := by
        rcases List.nodup_cons.mp hnd with ⟨hx, _⟩
        intro hxyeq
        exact hx (hxyeq ▸ List.mem_cons_self y t2)
      have hxl : x ∈ l := List.mem_dedup.mp (by rw [hd]; exact List.mem_cons_self _ _)
      have hyl : y ∈ l := List.mem_dedup.mp
        (by rw [hd, ht]; exact List.mem_cons_of_mem _ (List.mem_cons_self _ _))
      exact hxy (h x hxl y hyl)

lemma build_segments_length (segs : List SpeechSegment) (labels : List ℕ) :
    (build_segments segs labels).length = segs.length := by
  simp [build_segments]

/-- When the label list is as long as the segment list, the defensive
`if i < len(speaker_labels)` bound never fails and the construction is a
plain zip. -/
lemma build_segments_zip (segs : List SpeechSegment) (labels : List ℕ)
    (h : labels.length = segs.length) :
    build_segments segs labels =
      (segs.zip labels).map (fun q =>
        ⟨q.1.start, q.1.«end», "Speaker " ++ toString (q.2 + 1), ""⟩) := by
  apply List.ext_getElem
  · simp [build_segments, h]
  · intro i h1 h2
    simp only [build_segments, List.getElem_map, List.getElem_enum, List.getElem_zip]
    have hi : i < labels.length := by
      rw [build_segments_length] at h1
      omega
    rw [if_pos hi, List.getD_eq_getElem]

lemma diarize_download_error (env : Env) (fs : FS) (e : String)
    (h : env.download = Except.error e) :
    diarize_audio env fs = (Except.error e, fs) := by
  simp [diarize_audio, h]

lemma diarize_convert_error (env : Env) (fs : FS) (audio_path e : String)
    (hd : env.download = Except.ok audio_path)
    (hc : env.convert audio_path = Except.error e) :
    diarize_audio env fs = (Except.error e, createFile audio_path fs) := by
  simp [diarize_audio, hd, hc]

lemma diarize_vad_error (env : Env) (fs : FS) (audio_path wav_path e : String)
    (hd : env.download = Except.ok audio_path)
    (hc : env.convert audio_path = Except.ok wav_path)
    (hv : env.vad wav_path = Except.error e) :
    diarize_audio env fs = (Except.error e, createFile wav_path (createFile audio_path fs)) := by
  simp [diarize_audio, hd, hc, hv]

lemma diarize_no_speech (env : Env) (fs : FS) (audio_path wav_path : String) (cls : List Bool)
    (hd : env.download = Except.ok audio_path)
    (hc : env.convert audio_path = Except.ok wav_path)
    (hv : env.vad wav_path = Except.ok cls)
    (hcls : detect_speech_segments cls = []) :
    diarize_audio env fs =
      (Except.ok ⟨[], 0, 0, [("message", "No speech detected")]⟩,
       createFile wav_path (createFile audio_path fs)) := by
  simp [diarize_audio, hd, hc, hv, hcls]

lemma diarize_extract_error (env : Env) (fs : FS) (audio_path wav_path : String)
    (cls : List Bool) (e : String)
    (hd : env.download = Except.ok audio_path)
    (hc : env.convert audio_path = Except.ok wav_path)
    (hv : env.vad wav_path = Except.ok cls)
    (hne : detect_speech_segments cls ≠ [])
    (hex : extract_embeddings env.encoder (env.samples wav_path) (detect_speech_segments cls) =
      Except.error e) :
    diarize_audio env fs = (Except.error e, createFile wav_path (createFile audio_path fs)) := by
  simp [diarize_audio, hd, hc, hv, hne, hex]

lemma diarize_cluster_error (env : Env) (fs : FS) (audio_path wav_path : String)
    (cls : List Bool) (embs : List (List ℚ)) (e : String)
    (hd : env.download = Except.ok audio_path)
    (hc : env.convert audio_path = Except.ok wav_path)
    (hv : env.vad wav_path = Except.ok cls)
    (hne : detect_speech_segments cls ≠ [])
    (hex : extract_embeddings env.encoder (env.samples wav_path) (detect_speech_segments cls) =
      Except.ok embs)
    (hcl : cluster_speakers env.fit_predict embs = Except.error e) :
    diarize_audio env fs = (Except.error e, createFile wav_path (createFile audio_path fs)) := by
  simp [diarize_audio, hd, hc, hv, hne, hex, hcl]

lemma diarize_success (env : Env) (fs : FS) (audio_path wav_path : String)
    (cls : List Bool) (embs : List (List ℚ)) (labels : List ℕ)
    (hd : env.download = Except.ok audio_path)
    (hc : env.convert audio_path = Except.ok wav_path)
    (hv : env.vad wav_path = Except.ok cls)
    (hne : detect_speech_segments cls ≠ [])
    (hex : extract_embeddings env.encoder (env.samples wav_path) (detect_speech_segments cls) =
      Except.ok embs)
    (hcl : cluster_speakers env.fit_predict embs = Except.ok labels) :
    diarize_audio env fs =
      (Except.ok
        ⟨build_segments (detect_speech_segments cls) labels,
         labels.dedup.length,
         calculate_confidence env.silhouette_score embs labels,
         [("speech_segments_count", toString (detect_speech_segments cls).length),
          ("embeddings_count", toString embs.length),
          ("processing_time", "mock")]⟩,
       unlink wav_path (unlink audio_path (createFile wav_path (createFile audio_path fs)))) := by
  simp [diarize_audio, hd, hc, hv, hne, hex, hcl]

lemma speech_frames_nil_of_no_speech (cls : List Bool) (h : ∀ b ∈ cls, b = false) :
    speech_frames cls = [] := by
  unfold speech_frames
  rw [List.filter_eq_nil_iff]
  intro i hi
  rw [List.mem_range] at hi
  rw [List.getD_eq_getElem cls false hi]
  simp [h cls[i] (List.getElem_mem hi)]

lemma detect_nil_of_no_speech (cls : List Bool) (h : ∀ b ∈ cls, b = false) :
    detect_speech_segments cls = [] := by
  unfold detect_speech_segments
  rw [speech_frames_nil_of_no_speech cls h]

/-! ### Claims -/

/-- C4: for every invocation whose frame classification marks zero frames
as speech, the segmenter returns `[]` and the pipeline short-circuits to
a success with no diarized segments, `speakerCount = 0` and
`confidence = 0.0`. The theorem quantifies over all environments,
including those whose embedding, clustering and confidence collaborators
always fail, so those stages are provably never consulted. -/
theorem C4_no_speech_short_circuit (env : Env) (fs : FS) (audio_path wav_path : String)
    (cls : List Bool)
    (hd : env.download = Except.ok audio_path)
    (hc : env.convert audio_path = Except.ok wav_path)
    (hv : env.vad wav_path = Except.ok cls)
    (hns : ∀ b ∈ cls, b = false) :
    detect_speech_segments cls = [] ∧
    (diarize_audio env fs).1 =
      Except.ok ⟨[], 0, 0, [("message", "No speech detected")]⟩ := by
  have hdet := detect_nil_of_no_speech cls hns
  refine ⟨hdet, ?_⟩
  rw [diarize_no_speech env fs audio_path wav_path cls hd hc hv hdet]

/-- Witness for C4 at a concrete three-frame all-non-speech input, with
embedding, clustering and confidence collaborators that always fail. -/
theorem C4_witness :
    detect_speech_segments [false, false, false] = [] ∧
    (diarize_audio
      ⟨Except.ok "tmp.wav", fun _ => Except.ok "tmp_converted.wav",
       fun _ => Except.ok [false, false, false], fun _ => [],
       fun _ => Except.error "embedding failed", fun _ => Except.error "clustering failed",
       fun _ _ => Except.error "confidence failed"⟩ ⟨[]⟩).1 =
      Except.ok ⟨[], 0, 0, [("message", "No speech detected")]⟩ :=
  C4_no_speech_short_circuit _ _ "tmp.wav" "tmp_converted.wav" [false, false, false]
    rfl rfl rfl (by decide)

/-- C2 (resource release): the spec requires the downloaded file and the
converted WAV file to be released on every path, but `diarize_audio`
unlinks them only on the normal success path. At the concrete
no-speech input below the invocation succeeds with the empty result while
both temporary files are still present; on a segmentation failure they
are also both left behind. -/
theorem C2_temp_files_leak :
    (diarize_audio
      ⟨Except.ok "tmp.wav", fun _ => Except.ok "tmp_converted.wav",
       fun _ => Except.ok [false, false, false], fun _ => [],
       fun _ => Except.error "embedding failed", fun _ => Except.error "clustering failed",
       fun _ _ => Except.error "confidence failed"⟩ ⟨[]⟩) =
      (Except.ok ⟨[], 0, 0, [("message", "No speech detected")]⟩,
       ⟨["tmp.wav", "tmp_converted.wav"]⟩) ∧
    (diarize_audio
      ⟨Except.ok "tmp.wav", fun _ => Except.ok "tmp_converted.wav",
       fun _ => Except.error "Speech detection failed", fun _ => [],
       fun _ => Except.error "embedding failed", fun _ => Except.error "clustering failed",
       fun _ _ => Except.error "confidence failed"⟩ ⟨[]⟩) =
      (Except.error "Speech detection failed",
       ⟨["tmp.wav", "tmp_converted.wav"]⟩) := by
  constructor
  · rw [diarize_no_speech _ _ "tmp.wav" "tmp_converted.wav" [false, false, false]
      rfl rfl rfl (detect_nil_of_no_speech _ (by decide))]
    rfl
  · rw [diarize_vad_error _ _ "tmp.wav" "tmp_converted.wav" "Speech detection failed"
      rfl rfl rfl]
    rfl

/-- C6: for every frame classification, the returned segments are sorted
strictly ascending by start and pairwise non-overlapping (each segment's
end is at most the next segment's start). -/
theorem C6_segments_sorted_nonoverlapping (cls : List Bool) :
    List.Pairwise (fun x y => x.start < y.start ∧ x.«end» ≤ y.start)
      (detect_speech_segments cls) := by
  have hpw := detect_pairwise cls
  refine hpw.imp_of_mem ?_
  intro x y hx _ hxy
  have hdx := detect_duration cls x hx
  exact ⟨by linarith, hxy⟩

/-- C7: every returned segment has duration at least 0.25 s; shorter
candidates are dropped inside the (total) merge loop rather than raising
an error. -/
theorem C7_min_duration (cls : List Bool) (seg : SpeechSegment)
    (h : seg ∈ detect_speech_segments cls) : 25/100 ≤ seg.«end» - seg.start :=
  detect_duration cls seg h

/-- Witness for C7: nine consecutive speech frames produce the segment
`[0, 0.27]`, whose duration meets the bound. -/
theorem C7_witness :
    (⟨0, 27/100⟩ : SpeechSegment) ∈ detect_speech_segments (List.replicate 9 true) ∧
    25/100 ≤ (⟨0, 27/100⟩ : SpeechSegment).«end» - (⟨0, 27/100⟩ : SpeechSegment).start := by
  have hm : (⟨0, 27/100⟩ : SpeechSegment) ∈ detect_speech_segments (List.replicate 9 true) := by
    rw [detect_replicate9]
    exact List.mem_singleton_self _
  exact ⟨hm, C7_min_duration _ _ hm⟩

set_option maxRecDepth 4000

/-- C8: the concrete scenario — speech at frames `[0..66]`, non-speech at
`[67..99]`, speech at `[100..166]` — yields exactly the two segments
`[0.000, 2.010]` and `[3.000, 5.010]`, with start = firstFrame × 0.030
and end = (lastFrame + 1) × 0.030. -/
theorem C8_concrete_two_segments :
    detect_speech_segments ((List.range 167).map (fun i => decide (i ≤ 66 ∨ 100 ≤ i))) =
      [⟨0, 201/100⟩, ⟨3, 501/100⟩] ∧
    (0 : ℚ) = frameTime 0 ∧ (201/100 : ℚ) = frameTime (66 + 1) ∧
    (3 : ℚ) = frameTime 100 ∧ (501/100 : ℚ) = frameTime (166 + 1) := by
  refine ⟨?_, by norm_num [frameTime], by norm_num [frameTime], by norm_num [frameTime],
    by norm_num [frameTime]⟩
  have h : speech_frames ((List.range 167).map (fun i => decide (i ≤ 66 ∨ 100 ≤ i))) =
      List.range' 0 67 ++ List.range' 100 67 := by decide
  unfold detect_speech_segments
  rw [h]
  rw [show (67 : ℕ) = 66 + 1 from rfl, range_one_succ]
  show mergeFrames 0 0 (List.range' (0 + 1) 66 ++ List.range' 100 (66 + 1)) = _
  rw [run_absorb_append]
  rw [range_one_succ, mergeFrames_cons]
  rw [if_pos (by omega)]
  rw [run_absorb]
  rw [emitSegment_eq, emitSegment_eq, if_pos (by omega), if_pos (by omega)]
  norm_num [frameTime]

/-- C1, counterexample: with speech at frames `[0..10]`, a single
non-speech frame at 11, and speech at `[12..20]` — both sub-runs long
enough for the 0.25 s filter — `detect_speech_segments` returns the two
segments `[0, 0.33]` and `[0.36, 0.63]`, not one merged segment: the
condition `frame - prev_frame > 1` already fires on a one-frame gap. -/
theorem C1_counterexample_single_frame_gap :
    detect_speech_segments ((List.range 21).map (fun i => decide (i ≠ 11))) =
      [⟨0, 33/100⟩, ⟨36/100, 63/100⟩] ∧
    (detect_speech_segments ((List.range 21).map (fun i => decide (i ≠ 11)))).length ≠ 1 := by
  have h : detect_speech_segments ((List.range 21).map (fun i => decide (i ≠ 11))) =
      [⟨frameTime 0, frameTime 11⟩, ⟨frameTime 12, frameTime 21⟩] := by
    apply detect_two_runs _ 0 10 20 (by omega) (by omega)
    · decide
    · exact (frameDur_ge_iff 0 10).mpr (by omega)
    · exact (frameDur_ge_iff (10 + 2) 20).mpr (by omega)
  rw [h]
  refine ⟨?_, by simp⟩
  norm_num [frameTime]

/-- C1, amended: a gap of exactly one non-speech frame DOES break a
segment. For every classification whose speech frames are exactly
`[a..b]` and `[b+2..c]` (non-speech at `b+1`), with each of the two
sub-runs long enough to pass the minimum-duration filter,
`detect_speech_segments` emits exactly the two segments
`[a·0.03, (b+1)·0.03]` and `[(b+2)·0.03, (c+1)·0.03]`, not one merged
segment. -/
theorem C1_amended_single_frame_gap_breaks (cls : List Bool) (a b c : ℕ)
    (hab : a ≤ b) (hbc : b + 2 ≤ c)
    (hsf : speech_frames cls =
      List.range' a (b + 1 - a) ++ List.range' (b + 2) (c - b - 1))
    (hd1 : frameTime (b + 1) - frameTime a ≥ 25/100)
    (hd2 : frameTime (c + 1) - frameTime (b + 2) ≥ 25/100) :
    detect_speech_segments cls =
      [⟨frameTime a, frameTime (b + 1)⟩, ⟨frameTime (b + 2), frameTime (c + 1)⟩] ∧
    (detect_speech_segments cls).length = 2 := by
  have h := detect_two_runs cls a b c hab hbc hsf hd1 hd2
  exact ⟨h, by rw [h]; rfl⟩

/-- Witness for the amended C1: speech at `[0..10]` and `[12..20]` with
the gap at 11 gives exactly two segments. -/
theorem C1_amended_witness :
    detect_speech_segments ((List.range 21).map (fun i => decide (i ≠ 11))) =
      [⟨frameTime 0, frameTime (10 + 1)⟩, ⟨frameTime (10 + 2), frameTime (20 + 1)⟩] ∧
    (detect_speech_segments ((List.range 21).map (fun i => decide (i ≠ 11)))).length = 2 :=
  C1_amended_single_frame_gap_breaks _ 0 10 20 (by omega) (by omega) (by decide)
    ((frameDur_ge_iff 0 10).mpr (by omega))
    ((frameDur_ge_iff (10 + 2) 20).mpr (by omega))

/-- C3: the confidence is always within `[0, 1]` (given that the external
silhouette score, when it succeeds, lies in `[-1, 1]`); it is exactly 0
when there are fewer than 2 vectors or all labels are identical; and
otherwise (at least 2 vectors, more than one distinct label, silhouette
succeeds) it is the silhouette score clamped below at 0. -/
theorem C3_confidence_range_and_cases
    (sil : List (List ℚ) → List ℕ → Except String ℚ)
    (hb : ∀ embs labels q, sil embs labels = Except.ok q → -1 ≤ q ∧ q ≤ 1)
    (embs : List (List ℚ)) (labels : List ℕ) :
    (0 ≤ calculate_confidence sil embs labels ∧ calculate_confidence sil embs labels ≤ 1) ∧
    (embs.length < 2 → calculate_confidence sil embs labels = 0) ∧
    ((∀ a ∈ labels, ∀ b ∈ labels, a = b) → calculate_confidence sil embs labels = 0) ∧
    (∀ q, sil embs labels = Except.ok q → ¬ embs.length < 2 → labels.dedup.length > 1 →
      calculate_confidence sil embs labels = max 0 q) := by
  refine ⟨?_, ?_, ?_, ?_⟩
  · unfold calculate_confidence
    split
    · norm_num
    · split
      · cases hq : sil embs labels with
        | ok q =>
          have := hb embs labels q hq
          constructor
          · exact le_max_left 0 q
          · exact max_le (by norm_num) this.2
        | error e => norm_num
      · norm_num
  · intro h
    unfold calculate_confidence
    rw [if_pos h]
  · intro h
    have hle := dedup_len_le_one h
    unfold calculate_confidence
    split
    · rfl
    · rw [if_neg (by omega)]
  · intro q hq h2 hdd
    unfold calculate_confidence
    rw [if_neg h2, if_pos hdd, hq]

/-- Witness for C3: a silhouette score of 1/2 on two one-dimensional
vectors with two distinct labels gives confidence `max 0 (1/2)`, within
bounds. -/
theorem C3_witness :
    (0 ≤ calculate_confidence (fun _ _ => Except.ok (1/2)) [[1], [2]] [0, 1] ∧
     calculate_confidence (fun _ _ => Except.ok (1/2)) [[1], [2]] [0, 1] ≤ 1) ∧
    calculate_confidence (fun _ _ => Except.ok (1/2)) [[1], [2]] [0, 1] = max 0 (1/2) := by
  have h := C3_confidence_range_and_cases (fun _ _ => Except.ok (1/2))
    (fun _ _ q hq => by cases hq; norm_num) [[1], [2]] [0, 1]
  refine ⟨h.1, ?_⟩
  exact h.2.2.2 (1/2) rfl (by simp) (by simp)

/-- C5: with an encoder that always succeeds and returns dimension-256
vectors, `extract_embeddings` succeeds and returns exactly one vector
per input segment; the `i`-th vector is determined by the `i`-th segment
(order preserved), has dimension 256, and is the all-zero vector whenever
that segment's sample slice is empty. -/
theorem C5_one_embedding_per_segment (f : List ℚ → List ℚ)
    (hdim : ∀ s, (f s).length = 256) (wav : List ℚ) (segs : List SpeechSegment) :
    ∃ embs : List (List ℚ),
      extract_embeddings (fun s => Except.ok (f s)) wav segs = Except.ok embs ∧
      embs.length = segs.length ∧
      ∀ (i : ℕ) (hi : i < segs.length) (hj : i < embs.length),
        embs[i] = (if (segment_slice wav segs[i]).length > 0
                   then f (segment_slice wav segs[i]) else List.replicate 256 0) ∧
        embs[i].length = 256 ∧
        (segment_slice wav segs[i] = [] → embs[i] = List.replicate 256 0) := by
  refine ⟨segs.map (fun segment =>
      if (segment_slice wav segment).length > 0 then f (segment_slice wav segment)
      else List.replicate 256 0),
    extract_pure f wav segs, by simp, ?_⟩
  intro i hi hj
  rw [List.getElem_map]
  refine ⟨rfl, ?_, ?_⟩
  · split
    · exact hdim _
    · simp
  · intro hempty
    rw [hempty]
    simp

/-- Witness for C5: a single segment over an empty buffer gives exactly
one embedding, the zero vector of dimension 256. -/
theorem C5_witness :
    extract_embeddings (fun _ => Except.ok (List.replicate 256 (0 : ℚ))) []
      [⟨0, 27/100⟩] = Except.ok [List.replicate 256 0] := by
  obtain ⟨embs, hok, hlen, hch⟩ := C5_one_embedding_per_segment
    (fun _ => List.replicate 256 (0 : ℚ)) (fun _ => by simp) [] [⟨0, 27/100⟩]
  have hlen1 : embs.length = 1 := by simpa using hlen
  obtain ⟨he, _, _⟩ := hch 0 (by norm_num) (by omega)
  have hslice : segment_slice [] ((⟨0, 27/100⟩ : SpeechSegment)) = [] := by
    unfold segment_slice
    exact pySlice_nil _ _
  simp only [List.getElem_singleton, hslice, List.length_nil, gt_iff_lt, lt_irrefl,
    if_false] at he
  have hembs : embs = [List.replicate 256 (0 : ℚ)] := by
    apply List.ext_getElem
    · simpa using hlen1
    · intro i h1 h2
      have hi0 : i = 0 := by omega
      subst hi0
      rw [he]
      simp
  rw [← hembs]
  exact hok

/-- The recovery in `calculate_confidence`: any failure of the external
silhouette computation is mapped to confidence 0.0. -/
lemma calculate_confidence_error (sil : List (List ℚ) → List ℕ → Except String ℚ)
    (embs : List (List ℚ)) (labels : List ℕ) (e : String)
    (h : sil embs labels = Except.error e) :
    calculate_confidence sil embs labels = 0 := by
  unfold calculate_confidence
  split
  · rfl
  · split
    · rw [h]
    · rfl

/-- C9: a failure inside the confidence computation is swallowed and
mapped to 0.0 (the invocation still succeeds, with the full segment
list); a failure of segmentation, embedding, or clustering aborts the
whole invocation with the failure as its only outcome — the error carries
no diarized segments, so no partial result and no segments with missing
or fabricated labels can be returned. -/
theorem C9_error_policy :
    (∀ (sil : List (List ℚ) → List ℕ → Except String ℚ) (embs : List (List ℚ))
        (labels : List ℕ) (e : String),
      sil embs labels = Except.error e → calculate_confidence sil embs labels = 0) ∧
    (∀ (env : Env) (fs : FS) (audio_path wav_path e : String),
      env.download = Except.ok audio_path →
      env.convert audio_path = Except.ok wav_path →
      env.vad wav_path = Except.error e →
      (diarize_audio env fs).1 = Except.error e) ∧
    (∀ (env : Env) (fs : FS) (audio_path wav_path : String) (cls : List Bool) (e : String),
      env.download = Except.ok audio_path →
      env.convert audio_path = Except.ok wav_path →
      env.vad wav_path = Except.ok cls →
      detect_speech_segments cls ≠ [] →
      extract_embeddings env.encoder (env.samples wav_path) (detect_speech_segments cls) =
        Except.error e →
      (diarize_audio env fs).1 = Except.error e) ∧
    (∀ (env : Env) (fs : FS) (audio_path wav_path : String) (cls : List Bool)
        (embs : List (List ℚ)) (e : String),
      env.download = Except.ok audio_path →
      env.convert audio_path = Except.ok wav_path →
      env.vad wav_path = Except.ok cls →
      detect_speech_segments cls ≠ [] →
      extract_embeddings env.encoder (env.samples wav_path) (detect_speech_segments cls) =
        Except.ok embs →
      cluster_speakers env.fit_predict embs = Except.error e →
      (diarize_audio env fs).1 = Except.error e) ∧
    (∀ (env : Env) (fs : FS) (audio_path wav_path : String) (cls : List Bool)
        (embs : List (List ℚ)) (labels : List ℕ) (e : String),
      env.download = Except.ok audio_path →
      env.convert audio_path = Except.ok wav_path →
      env.vad wav_path = Except.ok cls →
      detect_speech_segments cls ≠ [] →
      extract_embeddings env.encoder (env.samples wav_path) (detect_speech_segments cls) =
        Except.ok embs →
      cluster_speakers env.fit_predict embs = Except.ok labels →
      env.silhouette_score embs labels = Except.error e →
      (diarize_audio env fs).1 = Except.ok
        ⟨build_segments (detect_speech_segments cls) labels, labels.dedup.length, 0,
         [("speech_segments_count", toString (detect_speech_segments cls).length),
          ("embeddings_count", toString embs.length),
          ("processing_time", "mock")]⟩) := by
  refine ⟨calculate_confidence_error, ?_, ?_, ?_, ?_⟩
  · intro env fs audio_path wav_path e hd hc hv
    rw [diarize_vad_error env fs audio_path wav_path e hd hc hv]
  · intro env fs audio_path wav_path cls e hd hc hv hne hex
    rw [diarize_extract_error env fs audio_path wav_path cls e hd hc hv hne hex]
  · intro env fs audio_path wav_path cls embs e hd hc hv hne hex hcl
    rw [diarize_cluster_error env fs audio_path wav_path cls embs e hd hc hv hne hex hcl]
  · intro env fs audio_path wav_path cls embs labels e hd hc hv hne hex hcl hsil
    rw [diarize_success env fs audio_path wav_path cls embs labels hd hc hv hne hex hcl]
    rw [calculate_confidence_error env.silhouette_score embs labels e hsil]

/-- Witness for C9: a failing silhouette computation yields confidence 0,
and a failing voice-activity stage aborts a concrete invocation with the
stage's error. -/
theorem C9_witness :
    calculate_confidence (fun _ _ => Except.error "confidence failed") [[1], [2]] [0, 1] = 0 ∧
    (diarize_audio
      ⟨Except.ok "tmp.wav", fun _ => Except.ok "tmp_converted.wav",
       fun _ => Except.error "Speech detection failed", fun _ => [],
       fun _ => Except.error "embedding failed", fun _ => Except.error "clustering failed",
       fun _ _ => Except.error "confidence failed"⟩ ⟨[]⟩).1 =
      Except.error "Speech detection failed" := by
  constructor
  · exact C9_error_policy.1 _ [[1], [2]] [0, 1] "confidence failed" rfl
  · exact C9_error_policy.2.1 _ ⟨[]⟩ "tmp.wav" "tmp_converted.wav"
      "Speech detection failed" rfl rfl rfl

/-- C10: on a successful non-empty run, segment, embedding and label
counts agree, so the defensive index guard in the diarized-segment loop
never falls back to label 0; the constructed list is a plain zip of
segments with clusterer labels, and `cluster_speakers` is
length-preserving in both of its branches (given the sklearn contract
that `fit_predict` returns one label per sample). -/
theorem C10_label_alignment (env : Env) (fs : FS) (audio_path wav_path : String)
    (cls : List Bool) (embs : List (List ℚ)) (labels : List ℕ)
    (hfp : ∀ X L, env.fit_predict X = Except.ok L → L.length = X.length)
    (hd : env.download = Except.ok audio_path)
    (hc : env.convert audio_path = Except.ok wav_path)
    (hv : env.vad wav_path = Except.ok cls)
    (hne : detect_speech_segments cls ≠ [])
    (hex : extract_embeddings env.encoder (env.samples wav_path) (detect_speech_segments cls) =
      Except.ok embs)
    (hcl : cluster_speakers env.fit_predict embs = Except.ok labels) :
    embs.length = (detect_speech_segments cls).length ∧
    labels.length = embs.length ∧
    (∀ (M : List (List ℚ)) (L : List ℕ),
      cluster_speakers env.fit_predict M = Except.ok L → L.length = M.length) ∧
    build_segments (detect_speech_segments cls) labels =
      ((detect_speech_segments cls).zip labels).map (fun q =>
        ⟨q.1.start, q.1.«end», "Speaker " ++ toString (q.2 + 1), ""⟩) ∧
    (diarize_audio env fs).1 =
      Except.ok
        ⟨((detect_speech_segments cls).zip labels).map (fun q =>
            ⟨q.1.start, q.1.«end», "Speaker " ++ toString (q.2 + 1), ""⟩),
         labels.dedup.length,
         calculate_confidence env.silhouette_score embs labels,
         [("speech_segments_count", toString (detect_speech_segments cls).length),
          ("embeddings_count", toString embs.length),
          ("processing_time", "mock")]⟩ := by
  have h1 := extract_ok_length env.encoder (env.samples wav_path) _ _ hex
  have h2 := cluster_speakers_ok_length env.fit_predict hfp embs labels hcl
  have hbz := build_segments_zip _ labels (h2.trans h1)
  refine ⟨h1, h2, fun M L h => cluster_speakers_ok_length env.fit_predict hfp M L h, hbz, ?_⟩
  rw [diarize_success env fs audio_path wav_path cls embs labels hd hc hv hne hex hcl, hbz]

/-- Witness for C10: a one-segment run with a trivial encoder and
clusterer has one embedding and one label. -/
theorem C10_witness :
    [List.replicate 256 (0 : ℚ)].length =
      (detect_speech_segments (List.replicate 9 true)).length ∧
    ([0] : List ℕ).length = [List.replicate 256 (0 : ℚ)].length := by
  have h := C10_label_alignment
    ⟨Except.ok "a.wav", fun _ => Except.ok "b.wav",
     fun _ => Except.ok (List.replicate 9 true), fun _ => [],
     fun _ => Except.ok (List.replicate 256 0),
     fun X => Except.ok (List.replicate X.length 0),
     fun _ _ => Except.ok 0⟩ ⟨[]⟩ "a.wav" "b.wav"
    (List.replicate 9 true) [List.replicate 256 0] [0]
    (fun X L hXL => by cases hXL; simp) rfl rfl rfl
    (by rw [detect_replicate9]; simp)
    (by
      rw [detect_replicate9]
      have h := extract_pure (fun _ => List.replicate 256 (0 : ℚ)) [] [⟨0, 27/100⟩]
      simpa [segment_slice, pySlice_nil] using h)
    (by simp [cluster_speakers])
  exact ⟨h.1, h.2.1⟩
